import Mathlib

/-!
Verification of the training-step loss orchestration of the ai-toolkit
diffusion fine-tuning engine.  The development shallowly embeds the
relevant Python source into Lean: tensors become lists of per-item rows of
rational element values, the stateful trainable-network flags become an
explicit record threaded through the functions, randomness and the external
denoising-model service become oracle parameters, and fallible code returns
`Except`.  Every definition is translated from the corresponding source
function (`SDTrainer.calculate_loss`, `SDTrainer.get_prior_prediction`,
`SDTrainer.hook_train_loop`, `toolkit/guidance.py`,
`BaseSDTrainProcess.process_general_training_batch`), keeping source names.
-/

namespace AIToolkit

/-! ## Tensor model

A batch tensor is a list of items; each item is the flat list of its
element values (channel and spatial dimensions flattened).  All elementwise
torch operations become `List.zipWith` / `List.map`; `mean([1, 2, 3])`
becomes the per-item mean and `mean()` the mean of a vector. -/

abbrev Tensor := List (List ℚ)

/-- Elementwise binary operation on two same-shaped tensors (`torch` broadcasting
of two full tensors of equal shape). -/
def ew2 (f : ℚ → ℚ → ℚ) (a b : Tensor) : Tensor :=
  List.zipWith (List.zipWith f) a b

/-- Scalar multiplication of every element, `t * c`. -/
def tScale (c : ℚ) (t : Tensor) : Tensor :=
  t.map (List.map (fun x => x * c))

/-- Elementwise squared error, `torch.nn.functional.mse_loss(a, b, reduction="none")`. -/
def sqErr (a b : Tensor) : Tensor :=
  ew2 (fun x y => (x - y) ^ 2) a b

/-- Elementwise absolute error, `torch.nn.functional.l1_loss(a, b, reduction="none")`. -/
def absErr (a b : Tensor) : Tensor :=
  ew2 (fun x y => |x - y|) a b

/-- Mean of a vector of scalars, `tensor.mean()` on a 1-D tensor.
With Lean's `q / 0 = 0` convention the mean of the empty list is `0`. -/
def listMean (xs : List ℚ) : ℚ :=
  xs.sum / (xs.length : ℚ)

/-- Per-item means, `tensor.mean([1, 2, 3])` on a batched tensor. -/
def itemMeans (t : Tensor) : List ℚ :=
  t.map listMean

/-- Global mean over every element of a batched tensor, `tensor.mean()`. -/
def tMeanAll (t : Tensor) : ℚ :=
  listMean t.flatten

/-- Pointwise product of two per-item vectors. -/
def vMul (a b : List ℚ) : List ℚ :=
  List.zipWith (· * ·) a b

/-- Pointwise sum of two per-item vectors. -/
def vAdd (a b : List ℚ) : List ℚ :=
  List.zipWith (· + ·) a b

/-- Tensor of zeros with the shape of `t`, `torch.zeros_like(t)`. -/
def zerosLike (t : Tensor) : Tensor :=
  t.map (List.map (fun _ => 0))

/-! ## Timestep sampler (`BaseSDTrainProcess.process_general_training_batch`) -/

/-- Modelled from the spec: the linear range remap used for timesteps and
masks ("then remapped into range", "stretched" mask values).  The helper
`toolkit.basic.value_map` itself is not among the source files. -/
def value_map (x minIn maxIn minOut maxOut : ℚ) : ℚ :=
  (x - minIn) * (maxOut - minOut) / (maxIn - minIn) + minOut

/-- Conversion `tensor.long()`: PyTorch truncates the rational value toward
zero. -/
def toLong (q : ℚ) : ℤ :=
  q.num / (q.den : ℤ)

/-- Integer clamp `tensor.clamp(lo, hi)` (lower bound applied first). -/
def clampInt (x lo hi : ℤ) : ℤ :=
  min (max x lo) hi

/-- The `content_or_style` timestep sampling policy of the train config. -/
inductive ContentOrStyle
  | balanced
  | style
  | content
deriving DecidableEq

/-- Cubic warp of a uniform draw for the `style` policy
(`timesteps ** 3 * num_train_timesteps`). -/
def styleWarp (numTrainTimesteps : ℚ) (t : ℚ) : ℚ :=
  t ^ 3 * numTrainTimesteps

/-- Inverse cubic warp of a uniform draw for the `content` policy
(`(1 - timesteps ** 3) * num_train_timesteps`). -/
def contentWarp (numTrainTimesteps : ℚ) (t : ℚ) : ℚ :=
  (1 - t ^ 3) * numTrainTimesteps

/-- Timestep sampling of `process_general_training_batch`
(BaseSDTrainProcess.py lines 511-549).  Randomness enters as oracle inputs:
`rdraws` are the `torch.rand` draws in `[0, 1)` used by the `style` and
`content` policies, `idraws` the `torch.randint(min, max)` draws used by
`balanced`.  The warped draws are remapped from `[0, T - 1]` into
`[min, max]`, truncated to integers and clamped into `[min + 1, max - 1]`;
the `balanced` draws are returned unchanged (`.long()` on an integer tensor
is the identity). -/
def sampleTimesteps (policy : ContentOrStyle) (minDenoisingSteps maxDenoisingSteps : ℤ)
    (numTrainTimesteps : ℤ) (rdraws : List ℚ) (idraws : List ℤ) : List ℤ :=
  match policy with
  | .style => rdraws.map (fun r =>
      clampInt
        (toLong (value_map (styleWarp (numTrainTimesteps : ℚ) r) 0
          ((numTrainTimesteps : ℚ) - 1) (minDenoisingSteps : ℚ) (maxDenoisingSteps : ℚ)))
        (minDenoisingSteps + 1) (maxDenoisingSteps - 1))
  | .content => rdraws.map (fun r =>
      clampInt
        (toLong (value_map (contentWarp (numTrainTimesteps : ℚ) r) 0
          ((numTrainTimesteps : ℚ) - 1) (minDenoisingSteps : ℚ) (maxDenoisingSteps : ℚ)))
        (minDenoisingSteps + 1) (maxDenoisingSteps - 1))
  | .balanced => idraws

theorem clampInt_bounds (x lo hi : ℤ) (h : lo ≤ hi) :
    lo ≤ clampInt x lo hi ∧ clampInt x lo hi ≤ hi := by
  unfold clampInt
  constructor
  · exact le_min (le_max_right x lo) h
  · exact min_le_right _ _

/-- C5 (amended): for the `style` and `content` policies every sampled
timestep lies in `[min + 1, max - 1]`, hence strictly inside
`(min, max)`; for the `balanced` policy the draws (and hence the returned
timesteps) lie in `[min, max)`, inclusive of the lower boundary. -/
theorem C5_timesteps_in_range (policy : ContentOrStyle) (minD maxD T : ℤ)
    (rdraws : List ℚ) (idraws : List ℤ)
    (hrange : minD + 1 ≤ maxD - 1)
    (hdraws : ∀ d ∈ idraws, minD ≤ d ∧ d < maxD) :
    ∀ t ∈ sampleTimesteps policy minD maxD T rdraws idraws,
      (policy ≠ .balanced → minD < t ∧ t < maxD) ∧ (minD ≤ t ∧ t < maxD) := by
  intro t ht
  cases policy with
  | balanced =>
      refine ⟨fun h => absurd rfl h, hdraws t ht⟩
  | style =>
      simp only [sampleTimesteps, List.mem_map] at ht
      obtain ⟨r, _, rfl⟩ := ht
      obtain ⟨h1, h2⟩ := clampInt_bounds
        (toLong (value_map (styleWarp (T : ℚ) r) 0 ((T : ℚ) - 1) (minD : ℚ) (maxD : ℚ)))
        (minD + 1) (maxD - 1) hrange
      exact ⟨fun _ => ⟨by omega, by omega⟩, by omega, by omega⟩
  | content =>
      simp only [sampleTimesteps, List.mem_map] at ht
      obtain ⟨r, _, rfl⟩ := ht
      obtain ⟨h1, h2⟩ := clampInt_bounds
        (toLong (value_map (contentWarp (T : ℚ) r) 0 ((T : ℚ) - 1) (minD : ℚ) (maxD : ℚ)))
        (minD + 1) (maxD - 1) hrange
      exact ⟨fun _ => ⟨by omega, by omega⟩, by omega, by omega⟩

/-- Witness for `C5_timesteps_in_range` at a concrete configuration. -/
theorem C5_timesteps_in_range_witness :
    ((0 : ℤ) + 1 ≤ 10 - 1) ∧
      (∀ t ∈ sampleTimesteps .style 0 10 1000 [1/2] [], (0 : ℤ) < t ∧ t < 10) := by
  refine ⟨by decide, fun t ht => ?_⟩
  exact ((C5_timesteps_in_range .style 0 10 1000 [1/2] [] (by decide)
    (by intro d hd; cases hd)) t ht).1 (by decide)

/-- C5 counterexample: the `balanced` policy applies no clamping, so a
`randint(min, max)` draw equal to `min` is returned unchanged and the
claimed strict inequality `min < t` fails. -/
theorem C5_timesteps_counterexample :
    (0 : ℤ) ∈ sampleTimesteps .balanced 0 10 1000 [] [0] ∧
      ¬ ((0 : ℤ) < 0 ∧ (0 : ℤ) < 10) := by
  constructor
  · simp [sampleTimesteps]
  · decide

theorem sum_cubes_mul_four (n : ℕ) :
    4 * ∑ i in Finset.range n, ((i : ℚ)) ^ 3 = ((n : ℚ) * ((n : ℚ) - 1)) ^ 2 := by
  induction n with
  | zero => simp
  | succ m ih =>
      rw [Finset.sum_range_succ, mul_add, ih]
      push_cast
      ring

theorem styleSum_eq (n : ℕ) (T : ℚ) :
    ∑ i in Finset.range n, styleWarp T ((i : ℚ) / (n : ℚ))
      = (∑ i in Finset.range n, (i : ℚ) ^ 3) * (T / (n : ℚ) ^ 3) := by
  rw [Finset.sum_mul]
  refine Finset.sum_congr rfl (fun i _ => ?_)
  unfold styleWarp
  rw [div_pow]
  ring

theorem contentSum_eq (n : ℕ) (T : ℚ) :
    ∑ i in Finset.range n, contentWarp T ((i : ℚ) / (n : ℚ))
      = (n : ℚ) * T - ∑ i in Finset.range n, styleWarp T ((i : ℚ) / (n : ℚ)) := by
  rw [eq_sub_iff_add_eq, ← Finset.sum_add_distrib]
  have h : ∀ i ∈ Finset.range n,
      contentWarp T ((i : ℚ) / (n : ℚ)) + styleWarp T ((i : ℚ) / (n : ℚ)) = T := by
    intro i _
    unfold styleWarp contentWarp
    ring
  rw [Finset.sum_congr rfl h, Finset.sum_const, Finset.card_range, nsmul_eq_mul]

theorem warpSum_style_lt_content (n : ℕ) (T : ℚ) (hn : 1 ≤ n) (hT : 0 < T) :
    ∑ i in Finset.range n, styleWarp T ((i : ℚ) / (n : ℚ))
      < ∑ i in Finset.range n, contentWarp T ((i : ℚ) / (n : ℚ)) := by
  have hn0 : (0 : ℚ) < (n : ℚ) := by exact_mod_cast Nat.lt_of_lt_of_le Nat.zero_lt_one hn
  have hn1 : (1 : ℚ) ≤ (n : ℚ) := by exact_mod_cast hn
  have hn3 : (0 : ℚ) < (n : ℚ) ^ 3 := by positivity
  have h4S := sum_cubes_mul_four n
  set S : ℚ := ∑ i in Finset.range n, (i : ℚ) ^ 3 with hS
  have h2S : 2 * S < (n : ℚ) ^ 4 := by nlinarith [sq_nonneg ((n : ℚ) - 1), sq_nonneg (n : ℚ)]
  rw [contentSum_eq, lt_sub_iff_add_lt, styleSum_eq, ← hS, ← two_mul]
  have key : 2 * (S * (T / (n : ℚ) ^ 3)) = 2 * S * T / (n : ℚ) ^ 3 := by ring
  rw [key, div_lt_iff hn3]
  nlinarith [mul_lt_mul_of_pos_right h2S hT]

/-- C6 (amended): the `style` policy warps a uniform draw `t` as
`t ^ 3 * numTrainTimesteps` and the `content` policy as
`(1 - t ^ 3) * numTrainTimesteps`; the two warps sum to the full range, and
over a uniform grid of draws the `style` warp has the strictly smaller
total — i.e. `style` biases sampled timesteps toward the low-index
(less noisy) end of the schedule and `content` toward the high-index end,
the opposite skew directions from the ones the claim states. -/
theorem C6_cubic_warp_skew (n : ℕ) (T : ℚ) (hn : 1 ≤ n) (hT : 0 < T) :
    (∀ r : ℚ, contentWarp T r = T - styleWarp T r) ∧
    ∑ i in Finset.range n, styleWarp T ((i : ℚ) / (n : ℚ))
      < ∑ i in Finset.range n, contentWarp T ((i : ℚ) / (n : ℚ)) :=
  ⟨fun r => by unfold styleWarp contentWarp; ring, warpSum_style_lt_content n T hn hT⟩

/-- Witness for `C6_cubic_warp_skew` on the claim's grid of 1000 draws. -/
theorem C6_cubic_warp_skew_witness :
    1 ≤ 1000 ∧ (0 : ℚ) < 1000 ∧
      ∑ i in Finset.range 1000, styleWarp 1000 ((i : ℚ) / ((1000 : ℕ) : ℚ))
        < ∑ i in Finset.range 1000, contentWarp 1000 ((i : ℚ) / ((1000 : ℕ) : ℚ)) :=
  ⟨by norm_num, by norm_num, (C6_cubic_warp_skew 1000 1000 (by norm_num) (by norm_num)).2⟩

/-- C6 counterexample: on the uniform grid of 1000 draws the `content` warp
total is not below the `style` warp total — the claimed skew directions
(content low, style high) are reversed in the code. -/
theorem C6_cubic_warp_skew_counterexample :
    ¬ (∑ i in Finset.range 1000, contentWarp 1000 ((i : ℚ) / ((1000 : ℕ) : ℚ))
        < ∑ i in Finset.range 1000, styleWarp 1000 ((i : ℚ) / ((1000 : ℕ) : ℚ))) :=
  lt_asymm (warpSum_style_lt_content 1000 1000 (by norm_num) (by norm_num))

/-! ## Trainable-network state, the prior-prediction oracle and the
guidance loss strategies

The mutable training state touched by `get_prior_prediction` and the
guidance strategies is the unet train/eval mode, the trainable network's
`is_active` flag and `multiplier`, and the adapter's `is_active` flag.
`predict_noise` of the external `StableDiffusion` service becomes an oracle
parameter; each invocation is recorded in an event trace together with the
state it observes, and `loss.backward()` is recorded as an event carrying
the scalar value it back-propagates. -/

/-- Which concrete adapter class `self.adapter` is an instance of
(`noAdapter` models `self.adapter is None`). -/
inductive AdapterKind
  | noAdapter
  | ip
  | reference
  | custom
  | clipVision
  | t2i
  | controlNet
deriving DecidableEq

/-- The `isinstance(self.adapter, IPAdapter | ReferenceAdapter | CustomAdapter)`
check of `get_prior_prediction` deciding whether the adapter can be
deactivated. -/
def AdapterKind.canDisable : AdapterKind → Bool
  | .ip => true
  | .reference => true
  | .custom => true
  | _ => false

/-- The ambient training state mutated in place by the oracle and the
strategies. -/
structure NetState where
  unetTraining : Bool
  hasNetwork : Bool
  networkActive : Bool
  networkMultiplier : List ℚ
  adapterKind : AdapterKind
  adapterActive : Bool
deriving DecidableEq

/-- One `predict_noise` invocation together with the state it observes. -/
structure PredictCall where
  latents : Tensor
  timesteps : List ℤ
  multiplier : List ℚ
  networkActive : Bool
  unetTraining : Bool
  gradEnabled : Bool
deriving DecidableEq

/-- Events recorded while a strategy runs: forward passes and
`loss.backward()` calls (carrying the scalar value back-propagated). -/
inductive GEvent
  | predictEv (c : PredictCall)
  | backwardEv (v : ℚ)
deriving DecidableEq

def GEvent.isPredict : GEvent → Bool
  | .predictEv _ => true
  | _ => false

def GEvent.isBackward : GEvent → Bool
  | .backwardEv _ => true
  | _ => false

/-- The scalar a guidance strategy returns to the orchestrator:
its rational value, whether gradients are tracked on it, and whether it was
detached from the graph that produced it. -/
structure GScalar where
  val : ℚ
  requiresGrad : Bool
  detached : Bool
deriving DecidableEq

/-- `SDTrainer.get_prior_prediction` (SDTrainer.py lines 758-870).
The prompt-substitution work and the no-gradient forward pass itself are
external to the training state; the forward pass enters as `predictResult`,
an `Except` recording whether `predict_noise` raised.  The pair returned is
the propagated result together with the training state at the moment
control leaves the function: when `predict_noise` raises, the exception
propagates from inside the function body and none of the restore
assignments after the call are executed. -/
def get_prior_prediction (st : NetState) (predictResult : Except Unit Tensor) :
    Except Unit Tensor × NetState :=
  let was_unet_training := st.unetTraining
  let was_network_active := if st.hasNetwork then st.networkActive else false
  let st := if st.hasNetwork then { st with networkActive := false } else st
  let can_disable_adapter := st.adapterKind.canDisable
  let was_adapter_active := if can_disable_adapter then st.adapterActive else false
  let st := if can_disable_adapter then { st with adapterActive := false } else st
  let st := { st with unetTraining := false }
  match predictResult with
  | .error e => (.error e, st)
  | .ok prior_pred =>
    let st := if was_unet_training then { st with unetTraining := true } else st
    let st := if can_disable_adapter then { st with adapterActive := was_adapter_active } else st
    let st := if st.hasNetwork then { st with networkActive := was_network_active } else st
    (.ok prior_pred, st)

/-- `get_guided_loss_polarity` (guidance.py lines 300-381).  The scheduler's
`add_noise` and the model's `predict_noise` are oracle parameters; the
forward pass runs outside the `torch.no_grad()` block, hence with gradient
tracking.  Returns the scalar handed back to the orchestrator, the training
state at return, and the event trace. -/
def get_guided_loss_polarity (st : NetState)
    (predict : PredictCall → Tensor)
    (add_noise : Tensor → Tensor → List ℤ → Tensor)
    (conditional_latents unconditional_latents noise : Tensor)
    (network_weight_list : List ℚ) (timesteps : List ℤ) :
    GScalar × NetState × List GEvent :=
  let conditional_noisy_latents := add_noise conditional_latents noise timesteps
  let unconditional_noisy_latents := add_noise unconditional_latents noise timesteps
  let cat_latents := conditional_noisy_latents ++ unconditional_noisy_latents
  let cat_timesteps := timesteps ++ timesteps
  let negative_network_weights := network_weight_list.map (fun w => w * (-1))
  let positive_network_weights := network_weight_list.map (fun w => w * 1)
  let cat_network_weight_list := positive_network_weights ++ negative_network_weights
  let st := { st with unetTraining := true, networkActive := true,
                      networkMultiplier := cat_network_weight_list }
  let call : PredictCall :=
    { latents := cat_latents, timesteps := cat_timesteps,
      multiplier := st.networkMultiplier, networkActive := st.networkActive,
      unetTraining := st.unetTraining, gradEnabled := true }
  let prediction := predict call
  let k := (prediction.length + 1) / 2
  let pred_pos := prediction.take k
  let pred_neg := prediction.drop k
  let pred_loss := itemMeans (sqErr pred_pos noise)
  let pred_neg_loss := itemMeans (sqErr pred_neg noise)
  let loss := vAdd pred_loss pred_neg_loss
  let lossVal := listMean loss
  ({ val := lossVal, requiresGrad := true, detached := true }, st,
    [.predictEv call, .backwardEv lossVal])

/-- `get_targeted_guidance_loss` (guidance.py lines 188-297): baseline
no-gradient pass with the network disabled, then a gradient-tracked pass at
`multiplier = network_weight_list` regressing the prediction error against
the baseline error plus the unconditional-difference noise. -/
def get_targeted_guidance_loss (st : NetState)
    (predict : PredictCall → Tensor)
    (add_noise : Tensor → Tensor → List ℤ → Tensor)
    (conditional_latents unconditional_latents noise : Tensor)
    (network_weight_list : List ℚ) (timesteps : List ℤ) :
    GScalar × NetState × List GEvent :=
  let unconditional_diff := ew2 (· - ·) unconditional_latents conditional_latents
  let unconditional_diff_noise :=
    add_noise (zerosLike unconditional_latents) unconditional_diff timesteps
  let target_noise := ew2 (· + ·) noise unconditional_diff_noise
  let noisy_latents := add_noise conditional_latents target_noise timesteps
  let st := { st with networkActive := false, unetTraining := false }
  let baseline_call : PredictCall :=
    { latents := noisy_latents, timesteps := timesteps,
      multiplier := st.networkMultiplier, networkActive := st.networkActive,
      unetTraining := st.unetTraining, gradEnabled := false }
  let baseline_prediction := predict baseline_call
  let baseline_prediction_error := ew2 (· - ·) baseline_prediction noise
  let prediction_target := ew2 (· + ·) baseline_prediction_error unconditional_diff_noise
  let st := { st with unetTraining := true, networkActive := true,
                      networkMultiplier := network_weight_list }
  let call : PredictCall :=
    { latents := noisy_latents, timesteps := timesteps,
      multiplier := st.networkMultiplier, networkActive := st.networkActive,
      unetTraining := st.unetTraining, gradEnabled := true }
  let prediction := predict call
  let prediction_error := ew2 (· - ·) prediction noise
  let guidance_loss := itemMeans (sqErr prediction_error prediction_target)
  let lossVal := listMean guidance_loss
  ({ val := lossVal, requiresGrad := true, detached := true }, st,
    [.predictEv baseline_call, .predictEv call, .backwardEv lossVal])

/-- The module constant `DIFFERENTIAL_SCALER = 0.2` of guidance.py. -/
def DIFFERENTIAL_SCALER : ℚ := 1 / 5

/-- `get_targeted_polarity_loss` (guidance.py lines 55-184): the network is
toggled off and straight back on (the baseline pass of this strategy is
commented out in the source), then one doubled-batch gradient-tracked pass
runs at the concatenated polarized multiplier; each branch regresses
against its noise-plus-scaled-difference blend. -/
def get_targeted_polarity_loss (st : NetState)
    (predict : PredictCall → Tensor)
    (add_noise : Tensor → Tensor → List ℤ → Tensor)
    (conditional_latents unconditional_latents noise : Tensor)
    (network_weight_list : List ℚ) (timesteps : List ℤ) :
    GScalar × NetState × List GEvent :=
  let differential_scaler := DIFFERENTIAL_SCALER
  let unconditional_diff := ew2 (· - ·) unconditional_latents conditional_latents
  let unconditional_diff_noise := tScale differential_scaler unconditional_diff
  let conditional_diff := ew2 (· - ·) conditional_latents unconditional_latents
  let conditional_diff_noise := tScale differential_scaler conditional_diff
  let conditional_noise := ew2 (· + ·) noise unconditional_diff_noise
  let unconditional_noise := ew2 (· + ·) noise conditional_diff_noise
  let conditional_noisy_latents :=
    add_noise conditional_latents conditional_noise timesteps
  let unconditional_noisy_latents :=
    add_noise unconditional_latents unconditional_noise timesteps
  let cat_latents := conditional_noisy_latents ++ unconditional_noisy_latents
  let cat_timesteps := timesteps ++ timesteps
  let st := { st with networkActive := false, unetTraining := false }
  let negative_network_weights := network_weight_list.map (fun w => w * (-1))
  let positive_network_weights := network_weight_list.map (fun w => w * 1)
  let cat_network_weight_list := positive_network_weights ++ negative_network_weights
  let st := { st with unetTraining := true, networkActive := true,
                      networkMultiplier := cat_network_weight_list }
  let call : PredictCall :=
    { latents := cat_latents, timesteps := cat_timesteps,
      multiplier := st.networkMultiplier, networkActive := st.networkActive,
      unetTraining := st.unetTraining, gradEnabled := true }
  let prediction := predict call
  let k := (prediction.length + 1) / 2
  let pred_pos := prediction.take k
  let pred_neg := prediction.drop k
  let pred_loss := itemMeans (sqErr pred_pos conditional_noise)
  let pred_neg_loss := itemMeans (sqErr pred_neg unconditional_noise)
  let loss := vAdd pred_loss pred_neg_loss
  let lossVal := listMean loss
  ({ val := lossVal, requiresGrad := true, detached := true }, st,
    [.predictEv call, .backwardEv lossVal])

/-- `SDTrainer.get_guided_loss_targeted_polarity` (SDTrainer.py lines
486-601): baseline no-gradient pass on the mean latents with the network
disabled, then a doubled-batch gradient-tracked pass at multiplier
`±2 · weight`; the baseline is subtracted from both branch predictions
before regressing against the two latent differences, and the branch losses
are averaged. -/
def sdtrainer_get_guided_loss_targeted_polarity (st : NetState)
    (predict : PredictCall → Tensor)
    (add_noise : Tensor → Tensor → List ℤ → Tensor)
    (conditional_latents unconditional_latents noise : Tensor)
    (network_weight_list : List ℚ) (timesteps : List ℤ) :
    GScalar × NetState × List GEvent :=
  let mean_latents := tScale (1 / 2) (ew2 (· + ·) conditional_latents unconditional_latents)
  let unconditional_diff := ew2 (· - ·) unconditional_latents mean_latents
  let conditional_diff := ew2 (· - ·) conditional_latents mean_latents
  let conditional_noisy_latents := add_noise mean_latents noise timesteps
  let unconditional_noisy_latents := add_noise mean_latents noise timesteps
  let st := { st with networkActive := false, unetTraining := false }
  let baseline_call : PredictCall :=
    { latents := unconditional_noisy_latents, timesteps := timesteps,
      multiplier := st.networkMultiplier, networkActive := st.networkActive,
      unetTraining := st.unetTraining, gradEnabled := false }
  let baseline_prediction := predict baseline_call
  let cat_latents := conditional_noisy_latents ++ conditional_noisy_latents
  let cat_timesteps := timesteps ++ timesteps
  let negative_network_weights := network_weight_list.map (fun w => w * (-2))
  let positive_network_weights := network_weight_list.map (fun w => w * 2)
  let cat_network_weight_list := positive_network_weights ++ negative_network_weights
  let st := { st with unetTraining := true, networkActive := true,
                      networkMultiplier := cat_network_weight_list }
  let call : PredictCall :=
    { latents := cat_latents, timesteps := cat_timesteps,
      multiplier := st.networkMultiplier, networkActive := st.networkActive,
      unetTraining := st.unetTraining, gradEnabled := true }
  let prediction := predict call
  let k := (prediction.length + 1) / 2
  let pred_pos0 := prediction.take k
  let pred_neg0 := prediction.drop k
  let pred_pos := ew2 (· - ·) pred_pos0 baseline_prediction
  let pred_neg := ew2 (· - ·) pred_neg0 baseline_prediction
  let pred_loss := itemMeans (sqErr pred_pos unconditional_diff)
  let pred_neg_loss := itemMeans (sqErr pred_neg conditional_diff)
  let loss := (vAdd pred_loss pred_neg_loss).map (fun x => x / 2)
  let lossVal := listMean loss
  ({ val := lossVal, requiresGrad := true, detached := true }, st,
    [.predictEv baseline_call, .predictEv call, .backwardEv lossVal])

/-- C1 (amended): `get_prior_prediction` never modifies the network
multiplier and, on the normal return path, restores the network active
flag, the adapter active flag and the unet training mode to their pre-call
values while propagating the prediction; when the inner forward pass
raises, the restore assignments are skipped (refuted by the
counterexample).  The polarity guidance strategy does not restore at all:
it returns with the network forced active and the multiplier still set to
the concatenated polarized list. -/
theorem C1_network_state_restoration (st : NetState) (t : Tensor) :
    ((get_prior_prediction st (.ok t)).2.networkActive = st.networkActive ∧
     (get_prior_prediction st (.ok t)).2.adapterActive = st.adapterActive ∧
     (get_prior_prediction st (.ok t)).2.networkMultiplier = st.networkMultiplier ∧
     (get_prior_prediction st (.ok t)).2.unetTraining = st.unetTraining ∧
     (get_prior_prediction st (.ok t)).1 = .ok t) ∧
    (∀ (predict : PredictCall → Tensor) (add_noise : Tensor → Tensor → List ℤ → Tensor)
        (cond uncond noise : Tensor) (w : List ℚ) (ts : List ℤ),
      (get_guided_loss_polarity st predict add_noise cond uncond noise w ts).2.1.networkActive
          = true ∧
      (get_guided_loss_polarity st predict add_noise cond uncond noise w ts).2.1.networkMultiplier
          = w.map (fun x => x * 1) ++ w.map (fun x => x * (-1))) := by
  constructor
  · by_cases hn : st.hasNetwork <;> by_cases hc : st.adapterKind.canDisable <;>
      by_cases hu : st.unetTraining <;>
      simp [get_prior_prediction, hn, hc, hu]
  · intro predict add_noise cond uncond noise w ts
    exact ⟨rfl, rfl⟩

/-- C1 counterexample: with the network and an IP adapter active before the
call, an exception raised by the inner forward pass leaves both flags
forced off at the moment control returns to the caller; and on its normal
path the polarity strategy returns with the multiplier changed from `[1]`
to the concatenated pair `[1, -1]`. -/
theorem C1_network_state_restoration_counterexample :
    ((get_prior_prediction
        { unetTraining := true, hasNetwork := true, networkActive := true,
          networkMultiplier := [1], adapterKind := .ip, adapterActive := true }
        (.error ())).2.networkActive = false ∧
      (get_prior_prediction
        { unetTraining := true, hasNetwork := true, networkActive := true,
          networkMultiplier := [1], adapterKind := .ip, adapterActive := true }
        (.error ())).2.adapterActive = false) ∧
    ((get_guided_loss_polarity
        { unetTraining := true, hasNetwork := true, networkActive := true,
          networkMultiplier := [1], adapterKind := .noAdapter, adapterActive := false }
        (fun c => c.latents) (fun l _ _ => l) [[0]] [[0]] [[1]] [1] [0]).2.1.networkMultiplier
      = [1, -1] ∧ (1 : ℚ) :: [-1] ≠ [1]) := by
  refine ⟨⟨rfl, rfl⟩, ?_, by simp⟩
  norm_num [get_guided_loss_polarity]

/-- Property of a strategy's result: gradient tracking is re-enabled on the
returned scalar, the scalar was detached, and exactly one
`loss.backward()` ran inside the strategy — as the final action — on
exactly the value the strategy returns. -/
def returnsDetachedBackpropagatedScalar (R : GScalar × NetState × List GEvent) : Prop :=
  R.1.requiresGrad = true ∧ R.1.detached = true ∧
  R.2.2.filter GEvent.isBackward = [GEvent.backwardEv R.1.val] ∧
  R.2.2.getLast? = some (GEvent.backwardEv R.1.val)

/-- C7 (amended): every guidance loss strategy calls backward on its
computed loss inside the strategy function itself, as its last action, and
returns a detached scalar with gradient tracking re-enabled that carries
the computed loss value — which is generally nonzero, not a zero-valued
placeholder (refuted by the counterexample); the orchestrator's uniform
`loss.backward()` on such a detached leaf is a no-op for the model
parameters. -/
theorem C7_backward_inside_strategy (st : NetState)
    (predict : PredictCall → Tensor) (add_noise : Tensor → Tensor → List ℤ → Tensor)
    (cond uncond noise : Tensor) (w : List ℚ) (ts : List ℤ) :
    returnsDetachedBackpropagatedScalar
      (get_guided_loss_polarity st predict add_noise cond uncond noise w ts) ∧
    returnsDetachedBackpropagatedScalar
      (get_targeted_guidance_loss st predict add_noise cond uncond noise w ts) ∧
    returnsDetachedBackpropagatedScalar
      (get_targeted_polarity_loss st predict add_noise cond uncond noise w ts) ∧
    returnsDetachedBackpropagatedScalar
      (sdtrainer_get_guided_loss_targeted_polarity st predict add_noise cond uncond noise w ts) :=
  ⟨⟨rfl, rfl, rfl, rfl⟩, ⟨rfl, rfl, rfl, rfl⟩, ⟨rfl, rfl, rfl, rfl⟩, ⟨rfl, rfl, rfl, rfl⟩⟩

/-- C7 counterexample: a concrete polarity run whose returned scalar has
value `2`, not the zero value the claim asserts. -/
theorem C7_backward_inside_strategy_counterexample :
    (get_guided_loss_polarity
        { unetTraining := true, hasNetwork := true, networkActive := true,
          networkMultiplier := [1], adapterKind := .noAdapter, adapterActive := false }
        (fun c => c.latents) (fun l _ _ => l) [[0]] [[0]] [[1]] [1] [0]).1.val = 2 ∧
      (2 : ℚ) ≠ 0 := by
  constructor
  · norm_num [get_guided_loss_polarity, sqErr, ew2, vAdd, itemMeans, listMean]
  · norm_num

/-- C8: for the polarity strategy on a batch of size `N`, exactly one
forward pass is recorded and it is gradient-tracked, of batch size `2 N`,
on the conditional noisy latents concatenated with the unconditional noisy
latents, with the network active and its multiplier already set to the
positive weights concatenated with their negations; the returned loss is
the mean over items of the sum of the two branch losses, each branch being
the per-item mean of the unreduced squared error of the corresponding half
of the prediction against the same plain noise tensor. -/
theorem C8_polarity_forward_pass (st : NetState)
    (predict : PredictCall → Tensor) (add_noise : Tensor → Tensor → List ℤ → Tensor)
    (cond uncond noise : Tensor) (w : List ℚ) (ts : List ℤ) (N : ℕ)
    (hadd : ∀ (l n : Tensor) (t : List ℤ), (add_noise l n t).length = l.length)
    (hpredict : ∀ c : PredictCall, (predict c).length = c.latents.length)
    (hcond : cond.length = N) (huncond : uncond.length = N) :
    (get_guided_loss_polarity st predict add_noise cond uncond noise w ts).2.2.countP
        GEvent.isPredict = 1 ∧
    ∀ c : PredictCall,
      GEvent.predictEv c ∈ (get_guided_loss_polarity st predict add_noise cond uncond noise w ts).2.2 →
        c.gradEnabled = true ∧
        c.networkActive = true ∧
        c.latents = add_noise cond noise ts ++ add_noise uncond noise ts ∧
        c.latents.length = 2 * N ∧
        c.multiplier = w ++ w.map (fun x => -x) ∧
        (get_guided_loss_polarity st predict add_noise cond uncond noise w ts).1.val
          = listMean (vAdd (itemMeans (sqErr ((predict c).take N) noise))
              (itemMeans (sqErr ((predict c).drop N) noise))) := by
  constructor
  · rfl
  · intro c hc
    simp only [get_guided_loss_polarity, List.mem_cons, List.not_mem_nil, or_false] at hc
    rcases hc with hc | hc
    · cases hc
      refine ⟨rfl, rfl, rfl, ?_, ?_, ?_⟩
      · simp [hadd, hcond, huncond]
        omega
      · simp [mul_one, mul_neg_one]
      · have hlen : (predict
            { latents := add_noise cond noise ts ++ add_noise uncond noise ts,
              timesteps := ts ++ ts,
              multiplier := w.map (fun x => x * 1) ++ w.map (fun x => x * (-1)),
              networkActive := true, unetTraining := true, gradEnabled := true }).length
            = 2 * N := by
          rw [hpredict]
          simp [hadd, hcond, huncond]
          omega
        simp only [get_guided_loss_polarity]
        rw [hlen]
        have hk : (2 * N + 1) / 2 = N := by omega
        rw [hk]
    · cases hc

/-- Witness for `C8_polarity_forward_pass` at a concrete batch of size 1
with concrete scheduler and model oracles. -/
theorem C8_polarity_forward_pass_witness :
    ([[(0 : ℚ)]] : Tensor).length = 1 ∧
    (get_guided_loss_polarity
        { unetTraining := true, hasNetwork := true, networkActive := true,
          networkMultiplier := [1], adapterKind := .noAdapter, adapterActive := false }
        (fun c => c.latents) (fun l _ _ => l) [[0]] [[0]] [[1]] [1] [0]).2.2.countP
        GEvent.isPredict = 1 :=
  ⟨rfl, (C8_polarity_forward_pass
    { unetTraining := true, hasNetwork := true, networkActive := true,
      networkMultiplier := [1], adapterKind := .noAdapter, adapterActive := false }
    (fun c => c.latents) (fun l _ _ => l) [[0]] [[0]] [[1]] [1] [0] 1
    (fun _ _ _ => rfl) (fun _ => rfl) rfl rfl).1⟩

/-! ## NaN handling and the tail of the training step
(`SDTrainer.hook_train_loop`, lines 1474-1536) -/

/-- The step's scalar loss as the orchestrator sees it: its rational value,
whether it is NaN, and whether gradients are tracked on it. -/
structure TScalar where
  val : ℚ
  isnan : Bool
  requiresGrad : Bool
deriving DecidableEq

/-- Events of the post-loss part of a training step. -/
inductive StepEvent
  | backward (v : ℚ) (requiresGrad : Bool)
  | clipGrad
  | optimizerStep
  | zeroGrad
  | schedulerStep
deriving DecidableEq

/-- The NaN check of `hook_train_loop`
(`if torch.isnan(loss): loss = torch.zeros_like(loss).requires_grad_(True)`). -/
def nan_guard (loss : TScalar) : TScalar :=
  if loss.isnan then { val := 0, isnan := false, requiresGrad := true } else loss

/-- Multiplying the scalar loss by the batch loss-multiplier mean
(`loss = loss * loss_multiplier.mean()`); a non-NaN rational multiplier
preserves the NaN flag and gradient tracking. -/
def scaleScalar (loss : TScalar) (m : ℚ) : TScalar :=
  { loss with val := loss.val * m }

/-- `loss.backward()`: raises a runtime error when the scalar does not
track gradients, otherwise records the back-propagated value. -/
def backwardOp (loss : TScalar) : Except String StepEvent :=
  if loss.requiresGrad then .ok (.backward loss.val loss.requiresGrad)
  else .error "element 0 of tensors does not require grad"

/-- The tail of `SDTrainer.hook_train_loop` after the loss scalar is
computed: NaN substitution, final multiplier, backward, then — unless this
is a gradient-accumulation step — gradient clipping, the optimizer step and
gradient zeroing, and finally the learning-rate scheduler step.  Returns
the final scalar and the event sequence, or the propagated error. -/
def hook_train_loop_tail (loss0 : TScalar) (loss_multiplier_mean : ℚ)
    (is_grad_accumulation_step : Bool) : Except String (TScalar × List StepEvent) := do
  let loss := nan_guard loss0
  let loss := scaleScalar loss loss_multiplier_mean
  let bev ← backwardOp loss
  let evs := [bev]
  let evs := if !is_grad_accumulation_step then
      evs ++ [.clipGrad, .optimizerStep, .zeroGrad] else evs
  let evs := evs ++ [.schedulerStep]
  .ok (loss, evs)

/-- C2: when the computed step loss is NaN, the orchestrator does not
raise; it substitutes a zero-valued scalar with gradient tracking enabled
and the step continues through backward (on value `0`) and, on a
non-accumulation step, through the optimizer step. -/
theorem C2_nan_loss_substitution (v : ℚ) (rg : Bool) (m : ℚ) :
    nan_guard { val := v, isnan := true, requiresGrad := rg }
      = { val := 0, isnan := false, requiresGrad := true } ∧
    hook_train_loop_tail { val := v, isnan := true, requiresGrad := rg } m false
      = .ok ({ val := 0, isnan := false, requiresGrad := true },
          [.backward 0 true, .clipGrad, .optimizerStep, .zeroGrad, .schedulerStep]) := by
  constructor
  · rfl
  · simp [hook_train_loop_tail, nan_guard, scaleScalar, backwardOp, Bind.bind, Except.bind]

/-! ## The loss algebra engine (`SDTrainer.calculate_loss`, lines 239-452) -/

/-- The `loss_type` of the train config. -/
inductive LossType
  | mae
  | mse
deriving DecidableEq

/-- The `loss_target` of the train config (the `differential_noise` value
only influences the sampler, not `calculate_loss`). -/
inductive LossTarget
  | noise
  | source
  | unaugmented
  | differential_noise
deriving DecidableEq

/-- The noise scheduler's prediction-type metadata. -/
inductive PredictionType
  | epsilon
  | v_prediction
deriving DecidableEq

/-- The train-config fields read by `calculate_loss`. -/
structure TrainConfig where
  loss_target : LossTarget
  match_noise_norm : Bool
  pred_scaler : ℚ
  correct_pred_norm : Bool
  inverted_mask_prior : Bool
  inverted_mask_prior_multiplier : ℚ
  do_prior_divergence : Bool
  train_turbo : Bool
  loss_type : LossType
  learnable_snr_gos : Bool
  snr_gamma : Option ℚ
  min_snr_gamma : Option ℚ
deriving DecidableEq

/-- The denoising-model metadata read by `calculate_loss`. -/
structure SDModel where
  prediction_type : PredictionType
  is_v3 : Bool
deriving DecidableEq

/-- External collaborators of `calculate_loss`, passed as oracles: the
norm- and distribution-matching rescalings use L2 norms and standard
deviations (square roots, not representable over ℚ), the scheduler's
`get_velocity` and the turbo denoising step belong to the external
denoising-model service, `encode_images` of the unaugmented tensor is
external image encoding (modelled as its precomputed, `latent_multiplier`
scaled result), and `apply_snr_weight` / `apply_learnable_snr_gos` live in
`toolkit.train_tools`, which is not among the source files.  `hasNaN`
models `torch.isnan(...).any()`, which no ℚ-valued tensor can trigger. -/
structure LossExternals where
  matchNorm : Tensor → Tensor → Tensor
  correctNormNoise : Tensor → Tensor → Tensor → Tensor
  getVelocity : Tensor → Tensor → List ℤ → Tensor
  encodeUnaugmentedLatents : Tensor
  turboOutput : Tensor → Tensor → List ℤ → Tensor → Tensor × Tensor
  turboMask : Tensor → Tensor
  snrGos : List ℚ → List ℤ → List ℚ
  snrFixed : ℚ → List ℚ → List ℤ → List ℚ
  snrMin : ℚ → List ℚ → List ℤ → List ℚ
  hasNaN : Tensor → Bool

/-- Tensor of ones with the shape of `t`, `torch.ones_like(t)`. -/
def onesLike (t : Tensor) : Tensor :=
  t.map (List.map (fun _ => 1))

/-- Target selection of `calculate_loss` (SDTrainer.py lines 271-330).
Returns the (possibly norm-corrected) noise, the selected regression
target, and the inverted-mask prior multiplier when one is computed.  The
branch structure follows the source exactly: entering the first branch
without setting a target falls through to the `if target is None:
target = noise` fallback, which picks up the reassigned noise. -/
def select_target (cfg : TrainConfig) (sd : SDModel) (ext : LossExternals)
    (is_reg has_mask : Bool) (prior_pred : Option Tensor)
    (noise_pred noise : Tensor) (mask_multiplier : Tensor) (mask_min_value : ℚ)
    (batch_tensor : Tensor) (timesteps : List ℤ) :
    Tensor × Tensor × Option Tensor :=
  if cfg.correct_pred_norm || (cfg.inverted_mask_prior && prior_pred.isSome && has_mask) then
    let noise1 :=
      if cfg.correct_pred_norm && !is_reg then
        match prior_pred with
        | some p => ext.correctNormNoise p noise_pred noise
        | none => noise
      else noise
    if cfg.inverted_mask_prior && prior_pred.isSome && has_mask then
      let stretched_mask_multiplier :=
        mask_multiplier.map (List.map (fun v => value_map v mask_min_value 1 0 1))
      let prior_mask_multiplier :=
        stretched_mask_multiplier.map (List.map (fun v => 1 - v))
      (noise1, noise1, some prior_mask_multiplier)
    else
      (noise1, noise1, none)
  else if prior_pred.isSome && !cfg.do_prior_divergence then
    (noise, prior_pred.getD noise, none)
  else if sd.prediction_type = .v_prediction then
    (noise, ext.getVelocity batch_tensor noise timesteps, none)
  else
    (noise, noise, none)

/-- The optional prior-divergence stage (SDTrainer.py lines 398-399):
the elementwise squared error against the prior prediction times `-1.0`
is added to the unreduced loss. -/
def apply_prior_divergence (loss pred prior : Tensor) : Tensor :=
  ew2 (· + ·) loss (tScale (-1) (sqErr pred prior))

/-- The mask stage (`loss = loss * mask_multiplier`, line 407). -/
def applyMask (loss mask : Tensor) : Tensor :=
  ew2 (· * ·) loss mask

/-- The spatial reduction (`loss = loss.mean([1, 2, 3])`, line 426). -/
def reduceItems (loss : Tensor) : List ℚ :=
  itemMeans loss

/-- The per-item loss multiplier (`loss = loss * loss_multiplier`,
line 428, applied after the spatial reduction). -/
def applyLossMultiplier (loss loss_multiplier : List ℚ) : List ℚ :=
  vMul loss loss_multiplier

/-- `SDTrainer.calculate_loss` (lines 239-452).  Fallible paths return the
source's `ValueError` text.  Both the prediction and the targets flow
through: norm matching, prediction scaling, target selection, the
loss-target remapping (`source`/`unaugmented`), the flow-matching (`v3`)
branch, the elementwise MAE/MSE error, prior divergence, masking, the
inverted-mask prior loss, spatial reduction, the per-item loss multiplier,
SNR reweighting, the final mean, and the adapter's additional loss. -/
def calculate_loss (cfg : TrainConfig) (sd : SDModel) (ext : LossExternals)
    (noise_pred0 noise0 noisy_latents : Tensor) (timesteps : List ℤ)
    (batch_latents batch_tensor : Tensor) (batch_sigmas : Option Tensor)
    (mask_multiplier : Tensor) (mask_min_value : ℚ)
    (prior_pred : Option Tensor)
    (loss_multiplier_list : List ℚ) (is_reg_list : List Bool) (has_mask : Bool)
    (additional_loss : Option Tensor) : Except String ℚ :=
  let is_reg := is_reg_list.any id
  let loss_multiplier := loss_multiplier_list
  let noise_pred1 :=
    if cfg.match_noise_norm then ext.matchNorm noise_pred0 noise0 else noise_pred0
  let noise_pred :=
    if cfg.pred_scaler ≠ 1 then tScale cfg.pred_scaler noise_pred1 else noise_pred1
  let sel := select_target cfg sd ext is_reg has_mask prior_pred noise_pred noise0
    mask_multiplier mask_min_value batch_tensor timesteps
  let noise := sel.1
  let target0 := sel.2.1
  let prior_mask_multiplier := sel.2.2
  let pt :=
    if cfg.train_turbo then ext.turboOutput noise_pred noisy_latents timesteps noise
    else (noise_pred, target0)
  let pred := pt.1
  let target := pt.2
  let lossE : Except String Tensor :=
    if cfg.loss_target = .source ∨ cfg.loss_target = .unaugmented then
      match batch_sigmas with
      | none => .error "Batch sigmas is None. This should not happen"
      | some sigmas =>
        let denoised_latents :=
          ew2 (· + ·) (ew2 (· * ·) noise_pred (tScale (-1) sigmas)) noisy_latents
        let weighing := sigmas.map (List.map (fun s => (s ^ 2)⁻¹))
        let target2 :=
          if cfg.loss_target = .source then batch_latents
          else
            let unaugmented_latents := ext.encodeUnaugmentedLatents
            match sd.prediction_type with
            | .epsilon => unaugmented_latents
            | .v_prediction => ext.getVelocity unaugmented_latents noise timesteps
        .ok (ew2 (· * ·) weighing (sqErr denoised_latents target2))
    else if sd.is_v3 then
      let target3 := noisy_latents
      .ok (ew2 (· * ·) (onesLike pred) (sqErr pred target3))
    else
      match cfg.loss_type with
      | .mae => .ok (absErr pred target)
      | .mse => .ok (sqErr pred target)
  match lossE with
  | .error e => .error e
  | .ok loss0 =>
    let loss1 :=
      match cfg.do_prior_divergence, prior_pred with
      | true, some pp => apply_prior_divergence loss0 pred pp
      | _, _ => loss0
    let mask := if cfg.train_turbo then ext.turboMask mask_multiplier else mask_multiplier
    let loss2 := applyMask loss1 mask
    let prior_loss : Option (List ℚ) :=
      match cfg.inverted_mask_prior, prior_pred, prior_mask_multiplier with
      | true, some pp, some pmm =>
        let pl0 :=
          match cfg.loss_type with
          | .mae => absErr pred pp
          | .mse => sqErr pred pp
        let pl := tScale cfg.inverted_mask_prior_multiplier (ew2 (· * ·) pl0 pmm)
        if ext.hasNaN pl then none else some (itemMeans pl)
      | _, _, _ => none
    let loss3 := applyLossMultiplier (reduceItems loss2) loss_multiplier
    let loss4 :=
      match prior_loss with
      | some pl => vAdd loss3 pl
      | none => loss3
    let ignore_snr := false
    let loss5 :=
      if !cfg.train_turbo then
        if cfg.learnable_snr_gos then ext.snrGos loss4 timesteps
        else if (match cfg.snr_gamma with
            | some g => decide (g > 1 / 1000000)
            | none => false) && !ignore_snr then
          ext.snrFixed (cfg.snr_gamma.getD 0) loss4 timesteps
        else if (match cfg.min_snr_gamma with
            | some g => decide (g > 1 / 1000000)
            | none => false) && !ignore_snr then
          ext.snrMin (cfg.min_snr_gamma.getD 0) loss4 timesteps
        else loss4
      else loss4
    let total := listMean loss5
    let total :=
      match additional_loss with
      | some extra => total + tMeanAll extra
      | none => total
    .ok total

/-- A concrete instantiation of the external collaborators, used to
evaluate the engine on closed inputs: rescalings are identities on their
primary argument, `get_velocity` returns the noise, the turbo step passes
its inputs through, SNR reweighting is the identity and nothing is NaN. -/
def trivialLossExternals : LossExternals where
  matchNorm := fun p _ => p
  correctNormNoise := fun _ _ n => n
  getVelocity := fun _ n _ => n
  encodeUnaugmentedLatents := []
  turboOutput := fun p _ _ _ => (p, p)
  turboMask := fun m => m
  snrGos := fun l _ => l
  snrFixed := fun _ l _ => l
  snrMin := fun _ l _ => l
  hasNaN := fun _ => false

theorem listMean_map_mul_right (r : List ℚ) (m : ℚ) :
    listMean (r.map (fun x => x * m)) = listMean r * m := by
  have hs : (r.map (fun x => x * m)).sum = r.sum * m := by
    induction r with
    | nil => simp
    | cons a t ih => simp [ih]; ring
  unfold listMean
  rw [hs, List.length_map, mul_div_right_comm]

/-- From the spec's words, for comparison with the source pipeline: the
unreduced elementwise loss multiplied by the mask and then by the per-item
loss multiplier broadcast over each item, with the spatial reduction
applied last. -/
def maskThenMultiplierBeforeReduction (loss mask : Tensor)
    (loss_multiplier : List ℚ) : List ℚ :=
  reduceItems (List.zipWith (fun row m => row.map (fun x => x * m))
    (applyMask loss mask) loss_multiplier)

/-- C4: the mask stage multiplies the unreduced loss elementwise by the
mask before the spatial reduction, and the per-item loss multiplier
(applied by the source right after the reduction) commutes with the
per-item mean, so the computed per-item losses equal exactly the
mask-then-multiplier-then-reduce pipeline the claim describes. -/
theorem C4_mask_multiplier_before_reduction (loss mask : Tensor)
    (loss_multiplier : List ℚ) :
    applyLossMultiplier (reduceItems (applyMask loss mask)) loss_multiplier
      = maskThenMultiplierBeforeReduction loss mask loss_multiplier := by
  unfold applyLossMultiplier maskThenMultiplierBeforeReduction vMul
  generalize applyMask loss mask = L
  induction L generalizing loss_multiplier with
  | nil => simp [reduceItems, itemMeans]
  | cons r t ih =>
    cases loss_multiplier with
    | nil => simp [reduceItems, itemMeans]
    | cons m ms =>
      simp only [List.zipWith_cons_cons, List.map_cons, reduceItems, itemMeans] at ih ⊢
      rw [listMean_map_mul_right, ih]

/-- C3 (amended): the regression target of `calculate_loss` is chosen as
follows, in the source's branch order.  (a) When `correct_pred_norm` is
set, a prior prediction exists and the batch holds no regularization item,
the target is the distribution-corrected noise; (b) when
`correct_pred_norm` is set otherwise, the target is the raw noise (the
branch short-circuits target selection even without a prior); (c) when
`inverted_mask_prior` is set with a prior and a mask (and
`correct_pred_norm` is off), the target is the raw noise — not a masked
blend; the prior instead enters through the separate inverted-mask prior
loss term; (d) the prior prediction itself when one exists and
prior-divergence is not requested; (e) the scheduler velocity under
v-prediction; (f) otherwise the raw noise. -/
theorem C3_target_selection (cfg : TrainConfig) (sd : SDModel) (ext : LossExternals)
    (is_reg has_mask : Bool) (prior_pred : Option Tensor)
    (noise_pred noise : Tensor) (mask_multiplier : Tensor) (mask_min_value : ℚ)
    (batch_tensor : Tensor) (timesteps : List ℤ) :
    (∀ p, cfg.correct_pred_norm = true → prior_pred = some p → is_reg = false →
      (select_target cfg sd ext is_reg has_mask prior_pred noise_pred noise
        mask_multiplier mask_min_value batch_tensor timesteps).2.1
        = ext.correctNormNoise p noise_pred noise) ∧
    (cfg.correct_pred_norm = true → (prior_pred = none ∨ is_reg = true) →
      (select_target cfg sd ext is_reg has_mask prior_pred noise_pred noise
        mask_multiplier mask_min_value batch_tensor timesteps).2.1 = noise) ∧
    (∀ p, cfg.correct_pred_norm = false → cfg.inverted_mask_prior = true →
      prior_pred = some p → has_mask = true →
      (select_target cfg sd ext is_reg has_mask prior_pred noise_pred noise
        mask_multiplier mask_min_value batch_tensor timesteps).2.1 = noise) ∧
    (∀ p, cfg.correct_pred_norm = false →
      (cfg.inverted_mask_prior = false ∨ has_mask = false) →
      prior_pred = some p → cfg.do_prior_divergence = false →
      (select_target cfg sd ext is_reg has_mask prior_pred noise_pred noise
        mask_multiplier mask_min_value batch_tensor timesteps).2.1 = p) ∧
    (cfg.correct_pred_norm = false →
      (cfg.inverted_mask_prior = false ∨ prior_pred = none ∨ has_mask = false) →
      (prior_pred = none ∨ cfg.do_prior_divergence = true) →
      sd.prediction_type = .v_prediction →
      (select_target cfg sd ext is_reg has_mask prior_pred noise_pred noise
        mask_multiplier mask_min_value batch_tensor timesteps).2.1
        = ext.getVelocity batch_tensor noise timesteps) ∧
    (cfg.correct_pred_norm = false →
      (cfg.inverted_mask_prior = false ∨ prior_pred = none ∨ has_mask = false) →
      (prior_pred = none ∨ cfg.do_prior_divergence = true) →
      sd.prediction_type = .epsilon →
      (select_target cfg sd ext is_reg has_mask prior_pred noise_pred noise
        mask_multiplier mask_min_value batch_tensor timesteps).2.1 = noise) := by
  refine ⟨?_, ?_, ?_, ?_, ?_, ?_⟩
  · intro p hcp hpp hir
    subst hpp
    simp only [select_target, hcp, hir, Option.isSome_some, Bool.true_and, Bool.true_or,
      if_true, Bool.not_false, Bool.and_true]
    split <;> rfl
  · intro hcp hcase
    rcases hcase with hpp | hir
    · subst hpp
      simp [select_target, hcp]
    · simp only [select_target, hcp, hir, Bool.true_or, if_true, Bool.not_true,
        Bool.and_false, Bool.false_and, if_false]
      split <;> rfl
  · intro p hcp himp hpp hm
    subst hpp
    simp [select_target, hcp, himp, hm]
  · intro p hcp hcase hpp hdiv
    subst hpp
    rcases hcase with himp | hm
    · simp [select_target, hcp, himp, hdiv]
    · simp [select_target, hcp, hm, hdiv]
  · intro hcp hcase1 hcase2 hpt
    rcases hcase2 with hpp | hdiv
    · subst hpp
      simp [select_target, hcp, hpt]
    · rcases hcase1 with himp | hpp | hm
      · simp [select_target, hcp, himp, hdiv, hpt]
      · subst hpp
        simp [select_target, hcp, hdiv, hpt]
      · simp [select_target, hcp, hm, hdiv, hpt]
  · intro hcp hcase1 hcase2 hpt
    rcases hcase2 with hpp | hdiv
    · subst hpp
      simp [select_target, hcp, hpt]
    · rcases hcase1 with himp | hpp | hm
      · simp [select_target, hcp, himp, hdiv, hpt]
      · subst hpp
        simp [select_target, hcp, hdiv, hpt]
      · simp [select_target, hcp, hm, hdiv, hpt]

/-- Witness for `C3_target_selection`: case (c) at a concrete input — the
inverted-mask-prior configuration selects the raw noise as target. -/
theorem C3_target_selection_witness :
    (select_target
      { loss_target := .noise, match_noise_norm := false, pred_scaler := 1,
        correct_pred_norm := false, inverted_mask_prior := true,
        inverted_mask_prior_multiplier := 1, do_prior_divergence := false,
        train_turbo := false, loss_type := .mse, learnable_snr_gos := false,
        snr_gamma := none, min_snr_gamma := none }
      { prediction_type := .epsilon, is_v3 := false } trivialLossExternals
      false true (some [[2]]) [[5]] [[1]] [[0]] 0 [[0]] [0]).2.1 = [[1]] :=
  (C3_target_selection
    { loss_target := .noise, match_noise_norm := false, pred_scaler := 1,
      correct_pred_norm := false, inverted_mask_prior := true,
      inverted_mask_prior_multiplier := 1, do_prior_divergence := false,
      train_turbo := false, loss_type := .mse, learnable_snr_gos := false,
      snr_gamma := none, min_snr_gamma := none }
    { prediction_type := .epsilon, is_v3 := false } trivialLossExternals
    false true (some [[2]]) [[5]] [[1]] [[0]] 0 [[0]] [0]).2.2.1 [[2]] rfl rfl rfl rfl

/-- From the spec's words, for comparison only: the masked blend of the
noise and the prior prediction that the claim asserts as the inverted-mask
target — noise weighted by the mask plus the prior weighted by one minus
the stretched mask. -/
def specMaskedBlendTarget (noise prior mask_multiplier : Tensor)
    (mask_min_value : ℚ) : Tensor :=
  let stretched := mask_multiplier.map (List.map (fun v => value_map v mask_min_value 1 0 1))
  let prior_mask_multiplier := stretched.map (List.map (fun v => 1 - v))
  ew2 (· + ·) (ew2 (· * ·) noise mask_multiplier)
    (ew2 (· * ·) prior prior_mask_multiplier)

/-- C3 counterexample: with `inverted_mask_prior` set, a prior prediction
`[[2]]`, noise `[[1]]` and an all-zero mask, the source selects the raw
noise `[[1]]` as target while the claimed masked blend equals `[[2]]`. -/
theorem C3_target_selection_counterexample :
    (select_target
      { loss_target := .noise, match_noise_norm := false, pred_scaler := 1,
        correct_pred_norm := false, inverted_mask_prior := true,
        inverted_mask_prior_multiplier := 1, do_prior_divergence := false,
        train_turbo := false, loss_type := .mse, learnable_snr_gos := false,
        snr_gamma := none, min_snr_gamma := none }
      { prediction_type := .epsilon, is_v3 := false } trivialLossExternals
      false true (some [[2]]) [[5]] [[1]] [[0]] 0 [[0]] [0]).2.1 = [[1]] ∧
    specMaskedBlendTarget [[1]] [[2]] [[0]] 0 = [[2]] ∧
    ([[1]] : Tensor) ≠ [[2]] := by
  refine ⟨?_, ?_, ?_⟩
  · norm_num [select_target]
  · norm_num [specMaskedBlendTarget, value_map, ew2]
  · simp

theorem zipWith_self_map {α β : Type} (f : α → α → β) (l : List α) :
    List.zipWith f l l = l.map (fun x => f x x) := by
  induction l with
  | nil => rfl
  | cons a t ih => simp [List.zipWith, ih]

theorem zipWith_map_right_absorb (op f : ℚ → ℚ → ℚ) (g : ℚ → ℚ) (p x : List ℚ)
    (h : ∀ a b, op (f a b) (g a) = f a b) :
    List.zipWith op (List.zipWith f p x) (p.map g) = List.zipWith f p x := by
  induction p generalizing x with
  | nil => rfl
  | cons a t ih =>
    cases x with
    | nil => rfl
    | cons b xs => simp [List.zipWith, h, ih]

theorem ew2_map_right_absorb (op f : ℚ → ℚ → ℚ) (g : ℚ → ℚ) (P X : Tensor)
    (h : ∀ a b, op (f a b) (g a) = f a b) :
    ew2 op (ew2 f P X) (P.map (List.map g)) = ew2 f P X := by
  induction P generalizing X with
  | nil => rfl
  | cons p ps ih =>
    cases X with
    | nil => rfl
    | cons x xs =>
      simp only [ew2, List.zipWith_cons_cons, List.map_cons] at ih ⊢
      rw [zipWith_map_right_absorb op f g p x h]
      rw [ih xs]

theorem apply_prior_divergence_self (f : ℚ → ℚ → ℚ) (pred target : Tensor) :
    apply_prior_divergence (ew2 f pred target) pred pred = ew2 f pred target := by
  unfold apply_prior_divergence
  have h1 : tScale (-1) (sqErr pred pred)
      = pred.map (List.map (fun x => (x - x) ^ 2 * (-1))) := by
    unfold tScale sqErr ew2
    rw [zipWith_self_map (List.zipWith fun x y => (x - y) ^ 2) pred, List.map_map]
    refine List.map_congr_left (fun row _ => ?_)
    simp only [Function.comp]
    rw [zipWith_self_map, List.map_map]
    rfl
  rw [h1]
  exact ew2_map_right_absorb _ f _ pred target (fun a b => by ring)

theorem apply_prior_divergence_absErr (pred target : Tensor) :
    apply_prior_divergence (absErr pred target) pred pred = absErr pred target :=
  apply_prior_divergence_self _ pred target

theorem apply_prior_divergence_sqErr (pred target : Tensor) :
    apply_prior_divergence (sqErr pred target) pred pred = sqErr pred target :=
  apply_prior_divergence_self _ pred target

set_option maxHeartbeats 1000000 in
/-- C9 (amended): when prior-divergence is enabled and a prior prediction
exists, `calculate_loss` adds the elementwise squared error against the
prior multiplied by `-1.0` to the base loss; for a prediction exactly equal
to the prior the added term is identically zero, so the computed loss
coincides with the run given no prior at all — enabling prior-divergence
does not strictly decrease the loss there.  (Relative to disabling the
flag it can strictly increase the loss, because with the flag off and a
prior present the prior itself becomes the regression target; see the
counterexample.) -/
theorem C9_prior_divergence_zero_at_prior (impm : ℚ) (lty : LossType)
    (lsg : Bool) (sg msg : Option ℚ) (pt : PredictionType)
    (ext : LossExternals) (noise_pred noise0 noisy_latents : Tensor)
    (timesteps : List ℤ) (batch_latents batch_tensor : Tensor)
    (batch_sigmas : Option Tensor) (mask_multiplier : Tensor) (mask_min_value : ℚ)
    (loss_multiplier_list : List ℚ) (is_reg_list : List Bool) (has_mask : Bool)
    (additional_loss : Option Tensor) :
    (∀ (f : ℚ → ℚ → ℚ) (pred target : Tensor),
      apply_prior_divergence (ew2 f pred target) pred pred = ew2 f pred target) ∧
    calculate_loss
        { loss_target := .noise, match_noise_norm := false, pred_scaler := 1,
          correct_pred_norm := false, inverted_mask_prior := false,
          inverted_mask_prior_multiplier := impm, do_prior_divergence := true,
          train_turbo := false, loss_type := lty, learnable_snr_gos := lsg,
          snr_gamma := sg, min_snr_gamma := msg }
        { prediction_type := pt, is_v3 := false } ext
        noise_pred noise0 noisy_latents timesteps batch_latents
        batch_tensor batch_sigmas mask_multiplier mask_min_value (some noise_pred)
        loss_multiplier_list is_reg_list has_mask additional_loss
      = calculate_loss
        { loss_target := .noise, match_noise_norm := false, pred_scaler := 1,
          correct_pred_norm := false, inverted_mask_prior := false,
          inverted_mask_prior_multiplier := impm, do_prior_divergence := true,
          train_turbo := false, loss_type := lty, learnable_snr_gos := lsg,
          snr_gamma := sg, min_snr_gamma := msg }
        { prediction_type := pt, is_v3 := false } ext
        noise_pred noise0 noisy_latents timesteps batch_latents
        batch_tensor batch_sigmas mask_multiplier mask_min_value none
        loss_multiplier_list is_reg_list has_mask additional_loss := by
  refine ⟨apply_prior_divergence_self, ?_⟩
  simp only [calculate_loss, select_target]
  norm_num
  rw [if_neg (by simp :
    ¬(LossTarget.noise = LossTarget.source ∨ LossTarget.noise = LossTarget.unaugmented))]
  cases lty <;>
    simp only [apply_prior_divergence_sqErr, apply_prior_divergence_absErr]

/-- C9 counterexample: prediction equal to the prior (`[[0]]`), noise
`[[1]]`.  With prior-divergence enabled the loss is `1` (target is the
noise, penalty term zero); with it disabled the loss is `0` (the prior
becomes the target).  Enabling the flag does not strictly decrease the
loss — here it strictly increases it. -/
theorem C9_prior_divergence_counterexample :
    calculate_loss
        { loss_target := .noise, match_noise_norm := false, pred_scaler := 1,
          correct_pred_norm := false, inverted_mask_prior := false,
          inverted_mask_prior_multiplier := 1, do_prior_divergence := true,
          train_turbo := false, loss_type := .mse, learnable_snr_gos := false,
          snr_gamma := none, min_snr_gamma := none }
        { prediction_type := .epsilon, is_v3 := false } trivialLossExternals
        [[0]] [[1]] [[0]] [0] [[0]] [[0]] none [[1]] 0 (some [[0]]) [1] [false] false none
      = .ok 1 ∧
    calculate_loss
        { loss_target := .noise, match_noise_norm := false, pred_scaler := 1,
          correct_pred_norm := false, inverted_mask_prior := false,
          inverted_mask_prior_multiplier := 1, do_prior_divergence := false,
          train_turbo := false, loss_type := .mse, learnable_snr_gos := false,
          snr_gamma := none, min_snr_gamma := none }
        { prediction_type := .epsilon, is_v3 := false } trivialLossExternals
        [[0]] [[1]] [[0]] [0] [[0]] [[0]] none [[1]] 0 (some [[0]]) [1] [false] false none
      = .ok 0 ∧
    ¬ ((1 : ℚ) < 0) := by
  refine ⟨?_, ?_, by norm_num⟩
  · simp only [calculate_loss, select_target, trivialLossExternals]
    rw [if_neg (by simp :
      ¬(LossTarget.noise = LossTarget.source ∨ LossTarget.noise = LossTarget.unaugmented))]
    norm_num [apply_prior_divergence, applyMask, reduceItems, applyLossMultiplier,
      itemMeans, listMean, sqErr, ew2, tScale, vMul, vAdd]
  · simp only [calculate_loss, select_target, trivialLossExternals]
    rw [if_neg (by simp :
      ¬(LossTarget.noise = LossTarget.source ∨ LossTarget.noise = LossTarget.unaugmented))]
    norm_num [apply_prior_divergence, applyMask, reduceItems, applyLossMultiplier,
      itemMeans, listMean, sqErr, ew2, tScale, vMul, vAdd]

theorem applyMask_sqErr_onesLike (P X : Tensor) :
    applyMask (sqErr P X) (onesLike P) = sqErr P X :=
  ew2_map_right_absorb _ _ _ P X (fun a b => mul_one _)

theorem vMul_replicate_one (v : List ℚ) (n : ℕ) (h : v.length ≤ n) :
    vMul v (List.replicate n 1) = v := by
  induction v generalizing n with
  | nil => rfl
  | cons a t ih =>
    cases n with
    | zero => simp at h
    | succ m =>
      simp only [List.replicate, vMul, List.zipWith_cons_cons, mul_one]
      rw [show List.zipWith (· * ·) t (List.replicate m 1) = vMul t (List.replicate m 1) from rfl]
      rw [ih m (by simpa using h)]

theorem itemMeans_sum (t : Tensor) (L : ℕ) (hrow : ∀ r ∈ t, r.length = L) :
    (itemMeans t).sum = t.flatten.sum / (L : ℚ) := by
  induction t with
  | nil => simp [itemMeans]
  | cons r ts ih =>
    have hr : r.length = L := hrow r (by simp)
    have ih2 := ih (fun x hx => hrow x (by simp [hx]))
    simp only [itemMeans, List.map_cons, List.sum_cons, List.flatten_cons, List.sum_append]
    rw [show (List.map listMean ts).sum = (itemMeans ts).sum from rfl, ih2]
    unfold listMean
    rw [hr, div_add_div_same]

theorem flatten_length_const (t : Tensor) (L : ℕ) (hrow : ∀ r ∈ t, r.length = L) :
    t.flatten.length = t.length * L := by
  induction t with
  | nil => simp
  | cons r ts ih =>
    have hr : r.length = L := hrow r (by simp)
    have ih2 := ih (fun x hx => hrow x (by simp [hx]))
    simp [hr, ih2, Nat.succ_mul, Nat.add_comm]

theorem listMean_itemMeans (t : Tensor) (L : ℕ) (hrow : ∀ r ∈ t, r.length = L) :
    listMean (itemMeans t) = tMeanAll t := by
  unfold tMeanAll listMean
  rw [itemMeans_sum t L hrow, flatten_length_const t L hrow]
  rw [show (itemMeans t).length = t.length from by simp [itemMeans]]
  rw [div_div]
  push_cast
  ring_nf

theorem ew2_row_length (f : ℚ → ℚ → ℚ) (A B : Tensor) (L : ℕ)
    (hA : ∀ r ∈ A, r.length = L) (hB : ∀ r ∈ B, r.length = L) :
    ∀ r ∈ ew2 f A B, r.length = L := by
  induction A generalizing B with
  | nil => intro r hr; simp [ew2] at hr
  | cons a as ih =>
    cases B with
    | nil => intro r hr; simp [ew2] at hr
    | cons b bs =>
      intro r hr
      simp only [ew2, List.zipWith_cons_cons, List.mem_cons] at hr
      rcases hr with rfl | hr
      · rw [List.length_zipWith, hA a (by simp), hB b (by simp), min_self]
      · exact ih bs (fun x hx => hA x (List.mem_cons_of_mem a hx))
          (fun x hx => hB x (List.mem_cons_of_mem b hx)) r (by simpa [ew2] using hr)

set_option maxHeartbeats 1000000 in
/-- C10: for a batch of 4 items with an all-ones mask multiplier, per-item
loss multipliers of 1, noise-target MSE loss, no prior prediction and all
SNR reweighting disabled, `calculate_loss` returns exactly the global mean
of the squared error between the prediction and the noise; the
orchestrator's final multiplier — the mean of the four per-item weights,
all 1 for a no-regularization batch — leaves that value unchanged through
the step tail. -/
theorem C10_plain_mse_scenario (impm : ℚ) (ext : LossExternals)
    (noise_pred noise0 noisy_latents : Tensor) (timesteps : List ℤ)
    (batch_latents batch_tensor : Tensor) (batch_sigmas : Option Tensor)
    (mask_min_value : ℚ) (is_reg_list : List Bool) (has_mask : Bool) (L : ℕ)
    (hlen : noise_pred.length = 4) (hnlen : noise0.length = 4)
    (hrows : ∀ r ∈ noise_pred, r.length = L)
    (hnrows : ∀ r ∈ noise0, r.length = L) :
    calculate_loss
        { loss_target := .noise, match_noise_norm := false, pred_scaler := 1,
          correct_pred_norm := false, inverted_mask_prior := false,
          inverted_mask_prior_multiplier := impm, do_prior_divergence := false,
          train_turbo := false, loss_type := .mse, learnable_snr_gos := false,
          snr_gamma := none, min_snr_gamma := none }
        { prediction_type := .epsilon, is_v3 := false } ext
        noise_pred noise0 noisy_latents timesteps batch_latents
        batch_tensor batch_sigmas (onesLike noise_pred) mask_min_value none
        (List.replicate 4 1) is_reg_list has_mask none
      = .ok (tMeanAll (sqErr noise_pred noise0)) ∧
    (hook_train_loop_tail
        { val := tMeanAll (sqErr noise_pred noise0), isnan := false, requiresGrad := true }
        (listMean (List.replicate 4 1)) false).map (fun p => p.1.val)
      = .ok (tMeanAll (sqErr noise_pred noise0)) := by
  constructor
  · simp only [calculate_loss, select_target]
    norm_num
    rw [if_neg (by simp :
      ¬(LossTarget.noise = LossTarget.source ∨ LossTarget.noise = LossTarget.unaugmented))]
    simp only [applyMask_sqErr_onesLike, reduceItems, applyLossMultiplier]
    rw [vMul_replicate_one _ 4 (by simp [itemMeans, sqErr, ew2, List.length_zipWith, hlen, hnlen])]
    have hsel : (if PredictionType.epsilon = PredictionType.v_prediction then
        (noise0, ext.getVelocity batch_tensor noise0 timesteps, (none : Option Tensor))
      else (noise0, noise0, (none : Option Tensor))).2.1 = noise0 := rfl
    rw [hsel]
    rw [listMean_itemMeans (sqErr noise_pred noise0) L
      (ew2_row_length _ _ _ L hrows hnrows)]
  · simp [hook_train_loop_tail, nan_guard, scaleScalar, backwardOp, Bind.bind,
      Except.bind, Except.map]
    norm_num [listMean]

/-- Witness for `C10_plain_mse_scenario` on a concrete batch of 4
single-element items. -/
theorem C10_plain_mse_scenario_witness :
    ([[(1 : ℚ)], [2], [3], [4]] : Tensor).length = 4 ∧
    calculate_loss
        { loss_target := .noise, match_noise_norm := false, pred_scaler := 1,
          correct_pred_norm := false, inverted_mask_prior := false,
          inverted_mask_prior_multiplier := 1, do_prior_divergence := false,
          train_turbo := false, loss_type := .mse, learnable_snr_gos := false,
          snr_gamma := none, min_snr_gamma := none }
        { prediction_type := .epsilon, is_v3 := false } trivialLossExternals
        [[1], [2], [3], [4]] [[0], [0], [0], [0]] [[0], [0], [0], [0]] [0, 0, 0, 0]
        [[0], [0], [0], [0]] [[0], [0], [0], [0]] none
        (onesLike [[1], [2], [3], [4]]) 0 none
        (List.replicate 4 1) [false, false, false, false] false none
      = .ok (tMeanAll (sqErr [[1], [2], [3], [4]] [[0], [0], [0], [0]])) :=
  ⟨rfl, (C10_plain_mse_scenario 1 trivialLossExternals
    [[1], [2], [3], [4]] [[0], [0], [0], [0]] [[0], [0], [0], [0]] [0, 0, 0, 0]
    [[0], [0], [0], [0]] [[0], [0], [0], [0]] none 0
    [false, false, false, false] false 1 rfl rfl
    (by
      intro r hr
      simp only [List.mem_cons, List.not_mem_nil, or_false] at hr
      rcases hr with rfl | rfl | rfl | rfl <;> rfl)
    (by
      intro r hr
      simp only [List.mem_cons, List.not_mem_nil, or_false] at hr
      rcases hr with rfl | rfl | rfl | rfl <;> rfl)).1⟩

end AIToolkit
